import Mathlib

/-!
Verification of the asynchronous analysis job workflow of the InsightEye
frontend, embedded from src/frontend/app/(dashboard)/layout.tsx (the
AnalyzePage component, in particular its handleAnalyze function and the
result-rendering JSX).

Modelling conventions:
- JSON numbers that the source treats as integers are Int; the two
  floating-point fields (confidence, readability_score) are ℚ and no
  arithmetic is performed on them by any claim.
- A JSON field that may be absent (or null, which is equally falsy in the
  source's truthiness checks) is an Option.
- React state is a PageState record; one invocation of handleAnalyze is a
  pure function of the pre-invocation state, the create-job response and
  the sequence of status-poll responses, returning the final state, the
  number of polls issued, the ordered list of deliveries to the caller
  (setAnalysisResult with a value, or setError with a nonempty message)
  and whether the create-job network request was issued.
- Closure capture: handleAnalyze is recreated on each render and closes
  over that render's `loading` value.  The setTimeout callback at lines
  91-97 therefore tests the value `loading` had when the handler was
  invoked (the pre-invocation state), not the current state.  The submit
  button (line 152) is disabled while `loading` is true, so every real
  invocation captures `loading = false`.
-/

/-- One entry of intent_analysis.user_intents as the renderer reads it
(lines 212-231); `evidence` may be absent (the code guards with
`intent.evidence &&`). -/
structure UserIntent where
  intent : String
  priority : String
  description : String
  evidence : Option (List String)
deriving DecidableEq

/-- One entry of intent_analysis.features (lines 241-250). -/
structure Feature where
  feature_name : String
  category : String
  description : String
deriving DecidableEq

/-- The intent_analysis section; both inner lists are independently
optional (the code guards each with `&&`, and an empty JS array is truthy,
so `some []` and `none` are distinct observable states). -/
structure IntentAnalysis where
  user_intents : Option (List UserIntent)
  features : Option (List Feature)
deriving DecidableEq

/-- One technology entry (lines 268-274); confidence is a float in the
producer's contract, embedded as ℚ (no arithmetic on it is verified). -/
structure TechEntry where
  technology : String
  confidence : ℚ
deriving DecidableEq

/-- The technology_stack section; technologies_by_category is an object
iterated with Object.entries (line 264), embedded as an association list
in insertion order. -/
structure TechnologyStack where
  technologies_by_category : Option (List (String × List TechEntry))
deriving DecidableEq

/-- user_experience.navigation (lines 289-307); the producer contract says
non-negative with internal + external ≤ total, but the code renders the
raw JSON numbers, so the fields are unconstrained Int. -/
structure Navigation where
  total_links : Int
  internal_links : Int
  external_links : Int
deriving DecidableEq

/-- user_experience.content (lines 309-325). -/
structure ContentInfo where
  total_words : Int
  readability_score : ℚ
deriving DecidableEq

/-- user_experience.interactivity (lines 327-347). -/
structure Interactivity where
  forms_count : Int
  images_count : Int
  has_search : Bool
deriving DecidableEq

/-- The user_experience section; each block is independently optional. -/
structure UserExperience where
  navigation : Option Navigation
  content : Option ContentInfo
  interactivity : Option Interactivity
deriving DecidableEq

/-- The raw JSON body of a status-poll response, as the code reads it
after `await statusResponse.json()`.  Every field is optional: the code
never checks presence of website_id, url, domain, title or
processing_time_ms, and only compares `status` against the strings
"completed" and "failed". -/
structure Payload where
  website_id : Option String
  url : Option String
  domain : Option String
  title : Option String
  status : Option String
  intent_analysis : Option IntentAnalysis
  technology_stack : Option TechnologyStack
  user_experience : Option UserExperience
  processing_time_ms : Option Int
deriving DecidableEq

/-- The React state of AnalyzePage that handleAnalyze reads and writes:
url (line 34), analysisResult (line 35), loading (line 36), error
(line 37, the empty string meaning no error). -/
structure PageState where
  url : String
  analysisResult : Option Payload
  loading : Bool
  error : String
deriving DecidableEq

/-- Outcome of the create-job fetch (lines 51-66).  `transportError`
covers any thrown exception: a fetch rejection or a response.json() parse
failure, carrying the message the catch block reads from it.  `httpError`
is a non-2xx response (the code then throws Error with a fixed message).
`ok` is a 2xx JSON body, whose analysis_id field may be absent — the code
never checks it. -/
inductive SubmitResponse where
  | transportError (msg : String)
  | httpError
  | ok (analysis_id : Option String)
deriving DecidableEq

/-- Outcome of one status-poll fetch (lines 71-87).  `transportError` is a
thrown exception, caught and logged at line 85.  `httpError` is a non-2xx
response: the code is inside `if (statusResponse.ok)`, so the body is
carried here only to let theorems state that it is never inspected. -/
inductive PollResponse where
  | transportError
  | httpError (body : Payload)
  | ok (body : Payload)
deriving DecidableEq

/-- One delivery to the caller: a result (setAnalysisResult with a value)
or an error (setError with a nonempty message). -/
inductive Delivery where
  | result (p : Payload)
  | error (msg : String)
deriving DecidableEq

/-- One tick of the setInterval callback (lines 69-88): returns the state
after the tick, whether clearInterval was called, and the delivery made,
if any.  A transport error is logged and ignored; a non-2xx response is
skipped without reading its body; an ok body is compared against
"completed" then "failed"; any other status leaves everything unchanged. -/
def pollTick (s : PageState) (r : PollResponse) : PageState × Bool × Option Delivery :=
  match r with
  | .transportError => (s, false, none)
  | .httpError _ => (s, false, none)
  | .ok body =>
    if body.status = some "completed" then
      ({ s with analysisResult := some body, loading := false }, true,
        some (.result body))
    else if body.status = some "failed" then
      ({ s with error := "分析失败，请重试", loading := false }, true,
        some (.error "分析失败，请重试"))
    else (s, false, none)

/-- Whether a poll response makes the tick call clearInterval. -/
def clears (r : PollResponse) : Bool :=
  match r with
  | .ok body =>
    decide (body.status = some "completed") || decide (body.status = some "failed")
  | _ => false

/-- The poll loop: `polls j` is the response to the j-th issued poll;
`i` is the number of polls issued so far and `fuel` the number of interval
ticks that can still fire before the 2-minute timer clears the interval.
Returns the final state, the total number of polls issued and the
deliveries made by the loop. -/
def pollLoopCore (polls : Nat → PollResponse) :
    PageState → Nat → Nat → PageState × Nat × List Delivery
  | s, i, 0 => (s, i, [])
  | s, i, fuel + 1 =>
    match pollTick s (polls i) with
    | (s2, true, d) => (s2, i + 1, d.toList)
    | (s2, false, _) => pollLoopCore polls s2 (i + 1) fuel

/-- Number of interval ticks that fire before the 2-minute timeout clears
the interval: the interval period is 2000 ms (line 88) and the timeout
120000 ms (line 97); the tick due at exactly 120000 ms was scheduled
before the timeout and fires first, so 60 polls are issued. -/
def maxTicks : Nat := 120000 / 2000

/-- The path the status polls are fetched from (line 71): a missing
analysis_id interpolates as the literal string "undefined" in the JS
template string. -/
def analysisIdSegment : Option String → String
  | some j => j
  | none => "undefined"

/-- Everything observable about one invocation of handleAnalyze. -/
structure RunOut where
  state : PageState
  pollsIssued : Nat
  deliveries : List Delivery
  submitIssued : Bool
  pollURL : Option String
deriving DecidableEq

/-- One invocation of handleAnalyze (lines 39-103) against pre-invocation
state `s`, create-job outcome `submit` and poll outcomes `polls`.
Control flow follows the source: the empty-url guard returns before any
network activity (lines 40-43); a submit failure is caught and reported
without starting the loop (lines 99-102); otherwise the poll loop runs
for at most `maxTicks` ticks, after which the 2-minute timeout callback
executes: it clears the interval unconditionally, then tests the
closure-captured pre-invocation value `s.loading` (lines 91-97). -/
def handleAnalyze (s : PageState) (submit : SubmitResponse)
    (polls : Nat → PollResponse) : RunOut :=
  if s.url = "" then
    { state := { s with error := "请输入网站URL" }, pollsIssued := 0,
      deliveries := [.error "请输入网站URL"], submitIssued := false,
      pollURL := none }
  else
    let s0 : PageState := { s with loading := true, error := "", analysisResult := none }
    match submit with
    | .transportError msg =>
      { state := { s0 with error := msg, loading := false }, pollsIssued := 0,
        deliveries := [.error msg], submitIssued := true, pollURL := none }
    | .httpError =>
      { state := { s0 with error := "分析提交失败", loading := false }, pollsIssued := 0,
        deliveries := [.error "分析提交失败"], submitIssued := true, pollURL := none }
    | .ok id =>
      let r := pollLoopCore polls s0 0 maxTicks
      if s.loading then
        { state := { r.1 with error := "分析超时，请重试", loading := false },
          pollsIssued := r.2.1,
          deliveries := r.2.2 ++ [.error "分析超时，请重试"], submitIssued := true,
          pollURL := some ("/api/v1/analysis/analyze/" ++ analysisIdSegment id) }
      else
        { state := r.1, pollsIssued := r.2.1, deliveries := r.2.2,
          submitIssued := true,
          pollURL := some ("/api/v1/analysis/analyze/" ++ analysisIdSegment id) }

/-- What the basic-info card displays (lines 178-201): `title || 'N/A'`
falls back for an absent or empty title; domain and status are rendered
raw; `processing_time_ms ? ... : 'N/A'` falls back for an absent value
and also for 0, which is falsy in JS. -/
structure BasicInfoRender where
  titleShown : String
  domainShown : Option String
  statusShown : Option String
  processingShown : Option Int
deriving DecidableEq

/-- The title fallback of line 183. -/
def titleText : Option String → String
  | some t => if t = "" then "N/A" else t
  | none => "N/A"

/-- The processing-time fallback of line 198 (0 is falsy). -/
def processingText : Option Int → Option Int
  | some n => if n = 0 then none else some n
  | none => none

def renderBasicInfo (p : Payload) : BasicInfoRender :=
  { titleShown := titleText p.title, domainShown := p.domain,
    statusShown := p.status, processingShown := processingText p.processing_time_ms }

/-- What one user-intent card displays (lines 212-231): the evidence list
appears only when `intent.evidence && intent.evidence.length > 0`, and is
truncated with slice(0, 3). -/
structure IntentRender where
  intent : String
  priority : String
  description : String
  evidenceShown : Option (List String)
deriving DecidableEq

def renderUserIntent (it : UserIntent) : IntentRender :=
  { intent := it.intent, priority := it.priority, description := it.description,
    evidenceShown :=
      match it.evidence with
      | some ev => if 0 < ev.length then some (ev.take 3) else none
      | none => none }

/-- What the intent-analysis card displays (lines 205-256): the
user-intents block appears when `user_intents` is truthy (an empty array
is truthy, so a present-but-empty list yields `some []`, distinct from
`none`); the features block is truncated with slice(0, 6). -/
structure IntentSectionRender where
  userIntentsBlock : Option (List IntentRender)
  featuresBlock : Option (List Feature)
deriving DecidableEq

def renderIntentSection (ia : IntentAnalysis) : IntentSectionRender :=
  { userIntentsBlock := ia.user_intents.map (List.map renderUserIntent),
    featuresBlock := ia.features.map (fun fs => fs.take 6) }

/-- What the technology-stack card displays (lines 259-282): the grid of
categories appears when technologies_by_category is truthy, and every
entry is rendered. -/
def renderTechSection (ts : TechnologyStack) : Option (List (String × List TechEntry)) :=
  ts.technologies_by_category

/-- What the user-experience card displays (lines 285-350): each block is
guarded by its own presence check, and the navigation, content and
interactivity values are rendered raw — a pass-through, with no clamping
of out-of-range values. -/
structure UXRender where
  navigationBlock : Option Navigation
  contentBlock : Option ContentInfo
  interactivityBlock : Option Interactivity
deriving DecidableEq

def renderUXSection (u : UserExperience) : UXRender :=
  { navigationBlock := u.navigation, contentBlock := u.content,
    interactivityBlock := u.interactivity }

/-- The whole results area (lines 175-352); each section card appears
exactly when its JSON subtree is present. -/
structure RenderOut where
  basicInfo : BasicInfoRender
  intentSection : Option IntentSectionRender
  techSection : Option (Option (List (String × List TechEntry)))
  uxSection : Option UXRender
deriving DecidableEq

def renderResult (p : Payload) : RenderOut :=
  { basicInfo := renderBasicInfo p,
    intentSection := p.intent_analysis.map renderIntentSection,
    techSection := p.technology_stack.map renderTechSection,
    uxSection := p.user_experience.map renderUXSection }

/-- The ordered text nodes one user-intent card contributes
(lines 213-231). -/
def userIntentText (it : UserIntent) : List String :=
  [it.intent, it.priority, it.description] ++
    (match it.evidence with
     | some ev => if 0 < ev.length then "支持证据:" :: ev.take 3 else []
     | none => [])

/-- The ordered text nodes one feature card contributes (lines 242-249). -/
def featureText (f : Feature) : List String :=
  [f.feature_name, f.category, f.description]

/-- The ordered text nodes of the intent-analysis region of the page
(lines 205-256): nothing at all when the section is absent; the section
heading, then the user-intents heading and cards when user_intents is
truthy, then the features heading and the first six feature cards when
features is truthy.  No other text exists in this region: in particular
there is no message for a present-but-empty list and none for an absent
section. -/
def intentSectionText (p : Payload) : List String :=
  match p.intent_analysis with
  | none => []
  | some ia =>
    "智能意图解构" ::
      ((match ia.user_intents with
        | none => []
        | some l => "用户意图分析" :: l.flatMap userIntentText) ++
       (match ia.features with
        | none => []
        | some fs => "功能特性分析" :: (fs.take 6).flatMap featureText))

/-- The label-value pairs the navigation block displays (lines 293-304):
the three counts are rendered exactly as received. -/
def navigationText (nav : Navigation) : List (String × Int) :=
  [("总链接数", nav.total_links), ("内部链接", nav.internal_links),
   ("外部链接", nav.external_links)]

/-- Whether a character sequence contains the scheme separator "://". -/
def hasSchemeSep : List Char → Bool
  | ':' :: '/' :: '/' :: _ => true
  | _ :: rest => hasSchemeSep rest
  | [] => false

/-- Modelled from the spec: the submission contract requires `url` to be
"non-empty and syntactically a URL".  As a minimal syntactic criterion an
absolute URL contains no space and has a scheme followed by the "://"
separator.  The source performs no such check — it only tests
non-emptiness — so this predicate exists only to state that fact. -/
def specIsURLSyntax (u : String) : Prop :=
  u ≠ "" ∧ ¬ (' ' ∈ u.data) ∧ hasSchemeSep u.data = true

instance : DecidablePred specIsURLSyntax := fun u => by
  unfold specIsURLSyntax; infer_instance

/-- A pre-invocation page state as it is at any real click of the submit
button: a nonempty url, no result, not loading (the button is disabled
while loading), no error. -/
def readyState (u : String) : PageState :=
  { url := u, analysisResult := none, loading := false, error := "" }

/-- A status body reporting a still-pending job. -/
def pendingPayload : Payload :=
  { website_id := some "w1", url := some "https://example.com",
    domain := none, title := none, status := some "pending",
    intent_analysis := none, technology_stack := none,
    user_experience := none, processing_time_ms := none }

/-- A status body reporting a still-running job. -/
def runningPayload : Payload :=
  { website_id := some "w1", url := some "https://example.org",
    domain := none, title := none, status := some "running",
    intent_analysis := none, technology_stack := none,
    user_experience := none, processing_time_ms := none }

/-- A terminal completed body with all sections absent. -/
def completedPayload : Payload :=
  { website_id := some "w1", url := some "https://example.com",
    domain := some "example.com", title := some "Example",
    status := some "completed", intent_analysis := none,
    technology_stack := none, user_experience := none,
    processing_time_ms := some 1200 }

/-- A terminal completed body missing the required identity fields
website_id and url entirely. -/
def noIdentityPayload : Payload :=
  { website_id := none, url := none, domain := none, title := none,
    status := some "completed", intent_analysis := none,
    technology_stack := none, user_experience := none,
    processing_time_ms := none }

/-- A terminal completed body whose intent_analysis is present with a
present-but-empty user_intents list. -/
def emptyIntentPayload : Payload :=
  { website_id := some "w2", url := some "https://e.example",
    domain := some "e.example", title := some "E",
    status := some "completed",
    intent_analysis := some { user_intents := some [], features := none },
    technology_stack := none, user_experience := none,
    processing_time_ms := some 5 }

/-- The same body with intent_analysis absent altogether. -/
def absentIntentPayload : Payload :=
  { website_id := some "w2", url := some "https://e.example",
    domain := some "e.example", title := some "E",
    status := some "completed", intent_analysis := none,
    technology_stack := none, user_experience := none,
    processing_time_ms := some 5 }

/-- Navigation counts violating the internal + external ≤ total invariant
(5 total, 3 internal, 3 external). -/
def violatingNav : Navigation :=
  { total_links := 5, internal_links := 3, external_links := 3 }

/-- A user_experience section carrying the violating navigation counts. -/
def violatingUX : UserExperience :=
  { navigation := some violatingNav, content := none, interactivity := none }

/-- A terminal completed body whose navigation counts violate the
internal + external ≤ total invariant. -/
def violatingNavPayload : Payload :=
  { website_id := some "w3", url := some "https://nav.example",
    domain := some "nav.example", title := some "Nav",
    status := some "completed", intent_analysis := none,
    technology_stack := none, user_experience := some violatingUX,
    processing_time_ms := none }

/-- The state handleAnalyze enters just before the create-job fetch
(lines 45-47): loading on, error cleared, previous result cleared. -/
def submitState (s : PageState) : PageState :=
  { s with loading := true, error := "", analysisResult := none }

lemma pollTick_clears_eq (s : PageState) (r : PollResponse) :
    (pollTick s r).2.1 = clears r := by
  cases r with
  | transportError => rfl
  | httpError b => rfl
  | ok body =>
    by_cases h1 : body.status = some "completed"
    · simp [pollTick, clears, h1]
    · by_cases h2 : body.status = some "failed"
      · simp [pollTick, clears, h1, h2]
      · simp [pollTick, clears, h1, h2]

lemma pollTick_skip (s : PageState) (r : PollResponse) (h : clears r = false) :
    pollTick s r = (s, false, none) := by
  cases r with
  | transportError => rfl
  | httpError b => rfl
  | ok body =>
    simp [clears] at h
    simp [pollTick, h.1, h.2]

lemma pollTick_clear_delivery (s : PageState) (r : PollResponse)
    (h : clears r = true) : ((pollTick s r).2.2).toList.length = 1 := by
  cases r with
  | transportError => simp [clears] at h
  | httpError b => simp [clears] at h
  | ok body =>
    by_cases h1 : body.status = some "completed"
    · simp [pollTick, h1]
    · simp [clears, h1] at h
      simp [pollTick, h1, h]

lemma pollLoopCore_skip (polls : Nat → PollResponse) (s : PageState)
    (i fuel : Nat) (h : clears (polls i) = false) :
    pollLoopCore polls s i (fuel + 1) = pollLoopCore polls s (i + 1) fuel := by
  simp [pollLoopCore, pollTick_skip s (polls i) h]

lemma pollLoopCore_clear (polls : Nat → PollResponse) (s : PageState)
    (i fuel : Nat) (h : clears (polls i) = true) :
    pollLoopCore polls s i (fuel + 1) =
      ((pollTick s (polls i)).1, i + 1, ((pollTick s (polls i)).2.2).toList) := by
  rcases he : pollTick s (polls i) with ⟨s2, b, d⟩
  have hb : b = true := by
    have hq := pollTick_clears_eq s (polls i)
    rw [he, h] at hq
    exact hq
  subst hb
  simp [pollLoopCore, he]

lemma pollLoopCore_all_skip (polls : Nat → PollResponse)
    (h : ∀ j, clears (polls j) = false) :
    ∀ fuel s i, pollLoopCore polls s i fuel = (s, i + fuel, []) := by
  intro fuel
  induction fuel with
  | zero => intro s i; simp [pollLoopCore]
  | succ n ih =>
    intro s i
    rw [pollLoopCore_skip polls s i n (h i), ih s (i + 1)]
    have e : i + 1 + n = i + (n + 1) := by omega
    rw [e]

lemma pollLoopCore_ge (polls : Nat → PollResponse) :
    ∀ fuel s i, i ≤ (pollLoopCore polls s i fuel).2.1 := by
  intro fuel
  induction fuel with
  | zero => intro s i; simp [pollLoopCore]
  | succ n ih =>
    intro s i
    rcases he : pollTick s (polls i) with ⟨s2, b, d⟩
    cases b with
    | false =>
      have hstep : pollLoopCore polls s i (n + 1) = pollLoopCore polls s2 (i + 1) n := by
        simp [pollLoopCore, he]
      rw [hstep]
      exact Nat.le_trans (Nat.le_succ i) (ih s2 (i + 1))
    | true =>
      simp [pollLoopCore, he]

lemma pollLoopCore_deliveries_le_one (polls : Nat → PollResponse) :
    ∀ fuel s i, (pollLoopCore polls s i fuel).2.2.length ≤ 1 := by
  intro fuel
  induction fuel with
  | zero => intro s i; simp [pollLoopCore]
  | succ n ih =>
    intro s i
    rcases he : pollTick s (polls i) with ⟨s2, b, d⟩
    cases b with
    | false =>
      have hstep : pollLoopCore polls s i (n + 1) = pollLoopCore polls s2 (i + 1) n := by
        simp [pollLoopCore, he]
      rw [hstep]
      exact ih s2 (i + 1)
    | true =>
      simp [pollLoopCore, he]
      cases d with
      | none => simp
      | some d0 => simp

lemma pollLoopCore_stops (polls : Nat → PollResponse) :
    ∀ k i m s, (∀ j, j < k → clears (polls (i + j)) = false) →
      clears (polls (i + k)) = true →
      pollLoopCore polls s i (k + m + 1) =
        ((pollTick s (polls (i + k))).1, i + k + 1,
          ((pollTick s (polls (i + k))).2.2).toList) := by
  intro k
  induction k with
  | zero =>
    intro i m s _ hc
    rw [Nat.add_zero] at hc
    have := pollLoopCore_clear polls s i m hc
    rw [Nat.zero_add]
    rw [Nat.add_zero]
    exact this
  | succ n ih =>
    intro i m s hb hc
    have h0 : clears (polls i) = false := by
      have := hb 0 (Nat.succ_pos n)
      rwa [Nat.add_zero] at this
    have efuel : n + 1 + m + 1 = n + m + 1 + 1 := by omega
    rw [efuel, pollLoopCore_skip polls s i (n + m + 1) h0]
    have hb2 : ∀ j, j < n → clears (polls (i + 1 + j)) = false := by
      intro j hj
      have := hb (j + 1) (by omega)
      have e : i + (j + 1) = i + 1 + j := by omega
      rwa [e] at this
    have hc2 : clears (polls (i + 1 + n)) = true := by
      have e : i + (n + 1) = i + 1 + n := by omega
      rwa [e] at hc
    have := ih (i + 1) m s hb2 hc2
    rw [this]
    have e2 : i + 1 + n = i + (n + 1) := by omega
    rw [e2]

lemma handleAnalyze_ok_run (s : PageState) (id : Option String)
    (polls : Nat → PollResponse) (hu : s.url ≠ "") (hl : s.loading = false) :
    handleAnalyze s (.ok id) polls =
      { state := (pollLoopCore polls (submitState s) 0 maxTicks).1,
        pollsIssued := (pollLoopCore polls (submitState s) 0 maxTicks).2.1,
        deliveries := (pollLoopCore polls (submitState s) 0 maxTicks).2.2,
        submitIssued := true,
        pollURL := some ("/api/v1/analysis/analyze/" ++ analysisIdSegment id) } := by
  simp [handleAnalyze, hu, hl, submitState]

lemma handleAnalyze_deliveries_le_one (s : PageState) (sub : SubmitResponse)
    (polls : Nat → PollResponse) (hl : s.loading = false) :
    (handleAnalyze s sub polls).deliveries.length ≤ 1 := by
  by_cases hu : s.url = ""
  · simp [handleAnalyze, hu]
  · cases sub with
    | transportError msg => simp [handleAnalyze, hu]
    | httpError => simp [handleAnalyze, hu]
    | ok id =>
      rw [handleAnalyze_ok_run s id polls hu hl]
      exact pollLoopCore_deliveries_le_one polls maxTicks _ 0

lemma pollLoopCore_pos (polls : Nat → PollResponse) (s : PageState) (i n : Nat) :
    i + 1 ≤ (pollLoopCore polls s i (n + 1)).2.1 := by
  rcases he : pollTick s (polls i) with ⟨s2, b, d⟩
  cases b with
  | false =>
    have hstep : pollLoopCore polls s i (n + 1) = pollLoopCore polls s2 (i + 1) n := by
      simp [pollLoopCore, he]
    rw [hstep]
    exact pollLoopCore_ge polls n s2 (i + 1)
  | true =>
    simp [pollLoopCore, he]

lemma handleAnalyze_first_poll_completed (s : PageState) (id : Option String)
    (p : Payload) (polls : Nat → PollResponse) (hu : s.url ≠ "")
    (hl : s.loading = false) (h0 : polls 0 = .ok p)
    (hst : p.status = some "completed") :
    handleAnalyze s (.ok id) polls =
      { state := { submitState s with analysisResult := some p, loading := false },
        pollsIssued := 1, deliveries := [Delivery.result p], submitIssued := true,
        pollURL := some ("/api/v1/analysis/analyze/" ++ analysisIdSegment id) } := by
  have hmx : maxTicks = 59 + 1 := by decide
  have hterm : clears (polls 0) = true := by simp [h0, clears, hst]
  rw [handleAnalyze_ok_run s id polls hu hl, hmx,
    pollLoopCore_clear polls (submitState s) 0 59 hterm, h0]
  simp [pollTick, hst]

/-- C1: a run whose create-job request succeeds and whose status polls all
report a non-terminal job, started from the only reachable pre-click state
(loading = false, since the submit button is disabled while loading).  The
source does stop polling when the 2-minute timer fires — 60 polls, never
more — but the timer callback tests the stale closure-captured `loading`
value (false), so the Timeout branch of lines 93-96 is dead: no error is
ever delivered, `loading` remains true and `error` remains empty forever.
The claim says a Timeout error is delivered; the code leaves the caller in
an indefinite loading state. -/
theorem timeout_run_leaves_loading_forever :
    handleAnalyze (readyState "https://example.com") (.ok (some "job-1"))
      (fun _ => .ok pendingPayload) =
    { state := { url := "https://example.com", analysisResult := none,
                 loading := true, error := "" },
      pollsIssued := 60, deliveries := [], submitIssued := true,
      pollURL := some "/api/v1/analysis/analyze/job-1" } := by rfl

/-- C2 counterexample: a submission whose polls keep reporting `running`
for the whole 2-minute window delivers nothing at all — neither a result
nor an error — refuting "exactly one of {result, error} is delivered". -/
theorem nonterminal_run_delivers_nothing :
    (handleAnalyze (readyState "https://example.org") (.ok (some "j2"))
      (fun _ => .ok runningPayload)).deliveries = [] ∧
    (handleAnalyze (readyState "https://example.org") (.ok (some "j2"))
      (fun _ => .ok runningPayload)).pollsIssued = 60 :=
  ⟨rfl, rfl⟩

/-- C2 (amended): at most one of {result, error} is delivered per
submission started from a reachable state, and when some poll reports a
terminal status (the first doing so being poll `k`, within the 2-minute
window) exactly one delivery is made and polling stops at poll `k + 1`. -/
theorem delivery_at_most_once_and_polling_stops (s : PageState)
    (id : Option String) (polls : Nat → PollResponse) (k : Nat)
    (s2 : PageState) (sub2 : SubmitResponse) (polls2 : Nat → PollResponse)
    (hl : s.loading = false) (hu : s.url ≠ "") (hk : k < maxTicks)
    (hbefore : ∀ j, j < k → clears (polls j) = false)
    (hterm : clears (polls k) = true) (hl2 : s2.loading = false) :
    (handleAnalyze s (.ok id) polls).deliveries.length = 1 ∧
    (handleAnalyze s (.ok id) polls).pollsIssued = k + 1 ∧
    (handleAnalyze s2 sub2 polls2).deliveries.length ≤ 1 := by
  obtain ⟨m, hm⟩ : ∃ m, maxTicks = k + m + 1 := ⟨maxTicks - k - 1, by omega⟩
  have hb0 : ∀ j, j < k → clears (polls (0 + j)) = false := by
    intro j hj
    rw [Nat.zero_add]
    exact hbefore j hj
  have hc0 : clears (polls (0 + k)) = true := by
    rw [Nat.zero_add]
    exact hterm
  have hstops := pollLoopCore_stops polls k 0 m (submitState s) hb0 hc0
  rw [Nat.zero_add] at hstops
  have hrun := handleAnalyze_ok_run s id polls hu hl
  refine ⟨?_, ?_, handleAnalyze_deliveries_le_one s2 sub2 polls2 hl2⟩
  · rw [hrun]
    show ((pollLoopCore polls (submitState s) 0 maxTicks).2.2).length = 1
    rw [hm, hstops]
    exact pollTick_clear_delivery (submitState s) (polls k) hterm
  · rw [hrun]
    show (pollLoopCore polls (submitState s) 0 maxTicks).2.1 = k + 1
    rw [hm, hstops]

/-- C2 witness: a run whose first poll reports `completed` delivers
exactly once and stops after one poll. -/
theorem delivery_at_most_once_and_polling_stops_witness :
    (handleAnalyze (readyState "https://w2.example") (.ok (some "j5"))
      (fun _ => .ok completedPayload)).deliveries.length = 1 ∧
    (handleAnalyze (readyState "https://w2.example") (.ok (some "j5"))
      (fun _ => .ok completedPayload)).pollsIssued = 0 + 1 ∧
    (handleAnalyze (readyState "https://w2b.example") .httpError
      (fun _ => .ok runningPayload)).deliveries.length ≤ 1 :=
  delivery_at_most_once_and_polling_stops (readyState "https://w2.example")
    (some "j5") (fun _ => .ok completedPayload) 0
    (readyState "https://w2b.example") .httpError (fun _ => .ok runningPayload)
    rfl (by decide) (by decide) (fun j hj => absurd hj (Nat.not_lt_zero j))
    (by decide) rfl

/-- C3 counterexample: a `completed` body missing both required identity
fields website_id and url is delivered as the result with no error and no
ParseError of any kind — the code performs no schema validation at all,
refuting "fails with ParseError(MissingRequiredField) exactly when one of
websiteId, url, or status is absent". -/
theorem missing_identity_fields_not_rejected :
    (handleAnalyze (readyState "https://a.example") (.ok (some "j4"))
      (fun _ => .ok noIdentityPayload)).deliveries =
      [Delivery.result noIdentityPayload] ∧
    (handleAnalyze (readyState "https://a.example") (.ok (some "j4"))
      (fun _ => .ok noIdentityPayload)).state.error = "" ∧
    noIdentityPayload.website_id = none ∧ noIdentityPayload.url = none :=
  ⟨rfl, rfl, rfl, rfl⟩

/-- C3 (amended): any poll body whose status field is the string
"completed" is delivered as the result, whatever other fields are absent —
the optional sections and scalars may all be missing, and so may the
identity fields websiteId and url: the code applies no schema validation
and can produce no parse error; `status` is the only field it inspects. -/
theorem completed_payload_always_accepted (s : PageState) (id : Option String)
    (p : Payload) (polls : Nat → PollResponse) (hl : s.loading = false)
    (hu : s.url ≠ "") (h0 : polls 0 = .ok p)
    (hst : p.status = some "completed") :
    (handleAnalyze s (.ok id) polls).deliveries = [Delivery.result p] ∧
    (handleAnalyze s (.ok id) polls).state.analysisResult = some p ∧
    (handleAnalyze s (.ok id) polls).state.error = "" ∧
    (handleAnalyze s (.ok id) polls).state.loading = false := by
  rw [handleAnalyze_first_poll_completed s id p polls hu hl h0 hst]
  exact ⟨rfl, rfl, by simp [submitState], rfl⟩

/-- C3 witness: a completed body whose technology_stack, user_experience,
title and domain are all absent is accepted and delivered. -/
theorem completed_payload_always_accepted_witness :
    (handleAnalyze (readyState "https://w3.example") (.ok (some "j6"))
      (fun _ => .ok emptyIntentPayload)).deliveries =
      [Delivery.result emptyIntentPayload] ∧
    (handleAnalyze (readyState "https://w3.example") (.ok (some "j6"))
      (fun _ => .ok emptyIntentPayload)).state.analysisResult =
      some emptyIntentPayload ∧
    (handleAnalyze (readyState "https://w3.example") (.ok (some "j6"))
      (fun _ => .ok emptyIntentPayload)).state.error = "" ∧
    (handleAnalyze (readyState "https://w3.example") (.ok (some "j6"))
      (fun _ => .ok emptyIntentPayload)).state.loading = false :=
  completed_payload_always_accepted (readyState "https://w3.example")
    (some "j6") emptyIntentPayload (fun _ => .ok emptyIntentPayload)
    rfl (by decide) rfl rfl

/-- C4 counterexample: a 2xx create-job response whose body lacks
analysis_id is not treated as a submission failure — no error is set and
polling starts anyway, against the path segment "undefined" produced by
interpolating the missing field, refuting the "if and only if". -/
theorem missing_job_id_not_a_submission_failure :
    (handleAnalyze (readyState "https://b.example") (.ok none)
      (fun _ => .ok pendingPayload)).pollsIssued = 60 ∧
    (handleAnalyze (readyState "https://b.example") (.ok none)
      (fun _ => .ok pendingPayload)).pollURL =
      some "/api/v1/analysis/analyze/undefined" ∧
    (handleAnalyze (readyState "https://b.example") (.ok none)
      (fun _ => .ok pendingPayload)).deliveries = [] :=
  ⟨rfl, rfl, rfl⟩

/-- C4 (amended): submission fails with a submission error, and no polling
ever starts, exactly when the create-job request returns non-2xx or
throws (transport failure or unparseable body); a parseable 2xx body
lacking the job identifier is not detected — the poll loop starts and
issues at least one request. -/
theorem submission_fails_iff_request_fails (s : PageState) (msg : String)
    (id : Option String) (polls : Nat → PollResponse) (hu : s.url ≠ "") :
    (handleAnalyze s .httpError polls).deliveries =
      [Delivery.error "分析提交失败"] ∧
    (handleAnalyze s .httpError polls).pollsIssued = 0 ∧
    (handleAnalyze s (.transportError msg) polls).deliveries =
      [Delivery.error msg] ∧
    (handleAnalyze s (.transportError msg) polls).pollsIssued = 0 ∧
    1 ≤ (handleAnalyze s (.ok id) polls).pollsIssued := by
  refine ⟨by simp [handleAnalyze, hu], by simp [handleAnalyze, hu],
    by simp [handleAnalyze, hu], by simp [handleAnalyze, hu], ?_⟩
  have hmx : maxTicks = 59 + 1 := by decide
  by_cases hl : s.loading
  · simp only [handleAnalyze, hu, if_neg hu, hl, if_pos]
    rw [hmx]
    exact pollLoopCore_pos polls _ 0 59
  · simp only [handleAnalyze, hu, if_neg hu, hl, if_neg]
    rw [hmx]
    exact pollLoopCore_pos polls _ 0 59

/-- C4 witness: a concrete non-2xx creation failure reports the submission
error with zero polls, and a concrete 2xx acceptance polls at least once. -/
theorem submission_fails_iff_request_fails_witness :
    (handleAnalyze (readyState "https://w4.example") .httpError
      (fun _ => .ok runningPayload)).deliveries =
      [Delivery.error "分析提交失败"] ∧
    (handleAnalyze (readyState "https://w4.example") .httpError
      (fun _ => .ok runningPayload)).pollsIssued = 0 ∧
    (handleAnalyze (readyState "https://w4.example")
      (.transportError "Failed to fetch")
      (fun _ => .ok runningPayload)).deliveries =
      [Delivery.error "Failed to fetch"] ∧
    (handleAnalyze (readyState "https://w4.example")
      (.transportError "Failed to fetch")
      (fun _ => .ok runningPayload)).pollsIssued = 0 ∧
    1 ≤ (handleAnalyze (readyState "https://w4.example") (.ok (some "j7"))
      (fun _ => .ok runningPayload)).pollsIssued :=
  submission_fails_iff_request_fails (readyState "https://w4.example")
    "Failed to fetch" (some "j7") (fun _ => .ok runningPayload) (by decide)

/-- Sample features list with eight entries, to exercise the slice(0, 6)
truncation. -/
def sampleFeatures : List Feature :=
  [{ feature_name := "f1", category := "core", description := "d1" },
   { feature_name := "f2", category := "core", description := "d2" },
   { feature_name := "f3", category := "core", description := "d3" },
   { feature_name := "f4", category := "core", description := "d4" },
   { feature_name := "f5", category := "core", description := "d5" },
   { feature_name := "f6", category := "core", description := "d6" },
   { feature_name := "f7", category := "core", description := "d7" },
   { feature_name := "f8", category := "core", description := "d8" }]

/-- Sample user intent with five evidence strings, to exercise the
slice(0, 3) truncation. -/
def sampleIntent : UserIntent :=
  { intent := "purchase", priority := "high", description := "buy flow",
    evidence := some ["e1", "e2", "e3", "e4", "e5"] }

/-- Sample intent_analysis section carrying both sample lists. -/
def sampleIA : IntentAnalysis :=
  { user_intents := some [sampleIntent], features := some sampleFeatures }

/-- C5 counterexample: "not a url" is nonempty but not syntactically a
URL, yet submission proceeds to the create-job network request instead of
failing with a validation error — the code checks only non-emptiness,
refuting "fails with a ValidationError before any network call" for
syntactically invalid URLs. -/
theorem invalid_url_still_reaches_network :
    ¬ specIsURLSyntax "not a url" ∧
    (handleAnalyze (readyState "not a url") .httpError
      (fun _ => .ok pendingPayload)).submitIssued = true :=
  ⟨by decide, rfl⟩

/-- C5 (amended): the only pre-network validation is the empty-url check:
submission stops before any network call exactly when url is empty (with
the fixed message of line 41), and any nonempty url — syntactically valid
or not — reaches the create-job request.  analysisTypes is hardcoded to
['intent', 'tech_stack', 'ux'] at line 58 and is not validated. -/
theorem validation_rejects_exactly_empty_url (s : PageState)
    (sub : SubmitResponse) (polls : Nat → PollResponse) :
    ((handleAnalyze s sub polls).submitIssued = false ↔ s.url = "") ∧
    (s.url = "" → handleAnalyze s sub polls =
      { state := { s with error := "请输入网站URL" }, pollsIssued := 0,
        deliveries := [Delivery.error "请输入网站URL"], submitIssued := false,
        pollURL := none }) := by
  by_cases hu : s.url = ""
  · exact ⟨by simp [handleAnalyze, hu], fun _ => by simp [handleAnalyze, hu]⟩
  · refine ⟨⟨fun hfalse => ?_, fun h => absurd h hu⟩, fun h => absurd h hu⟩
    exfalso
    cases sub with
    | transportError msg => simp [handleAnalyze, hu] at hfalse
    | httpError => simp [handleAnalyze, hu] at hfalse
    | ok id =>
      by_cases hl : s.loading <;> simp [handleAnalyze, hu, hl] at hfalse

/-- C5 witness: the empty url is rejected without any network call. -/
theorem validation_rejects_exactly_empty_url_witness :
    ((handleAnalyze (readyState "") .httpError
        (fun _ => .ok pendingPayload)).submitIssued = false ↔
      (readyState "").url = "") ∧
    ((readyState "").url = "" →
      handleAnalyze (readyState "") .httpError (fun _ => .ok pendingPayload) =
        { state := { readyState "" with error := "请输入网站URL" },
          pollsIssued := 0, deliveries := [Delivery.error "请输入网站URL"],
          submitIssued := false, pollURL := none }) :=
  validation_rejects_exactly_empty_url (readyState "") .httpError
    (fun _ => .ok pendingPayload)

/-- C6: a poll tick that throws leaves the page state untouched and does
not stop the interval, and a run whose first three polls all throw and
whose fourth reports `completed` still delivers the successful result to
the caller, stopping after the fourth poll. -/
theorem transient_poll_faults_tolerated (s : PageState) (id : Option String)
    (p : Payload) (hl : s.loading = false) (hu : s.url ≠ "")
    (hst : p.status = some "completed") :
    (∀ s2 : PageState, pollTick s2 .transportError = (s2, false, none)) ∧
    (handleAnalyze s (.ok id)
        (fun n => if n < 3 then .transportError else .ok p)).deliveries =
      [Delivery.result p] ∧
    (handleAnalyze s (.ok id)
        (fun n => if n < 3 then .transportError else .ok p)).state.analysisResult =
      some p ∧
    (handleAnalyze s (.ok id)
        (fun n => if n < 3 then .transportError else .ok p)).pollsIssued = 4 := by
  have hb0 : ∀ j, j < 3 →
      clears ((fun n => if n < 3 then PollResponse.transportError else .ok p) (0 + j)) = false := by
    intro j hj
    rw [Nat.zero_add]
    simp [clears, hj]
  have hc0 : clears ((fun n => if n < 3 then PollResponse.transportError else .ok p) (0 + 3)) = true := by
    simp [clears, hst]
  have hstops := pollLoopCore_stops
    (fun n => if n < 3 then PollResponse.transportError else .ok p) 3 0 56
    (submitState s) hb0 hc0
  rw [Nat.zero_add] at hstops
  have hmx : maxTicks = 3 + 56 + 1 := by decide
  have hrun := handleAnalyze_ok_run s id
    (fun n => if n < 3 then PollResponse.transportError else .ok p) hu hl
  refine ⟨fun s2 => rfl, ?_, ?_, ?_⟩
  · rw [hrun]
    show (pollLoopCore (fun n => if n < 3 then PollResponse.transportError else .ok p)
      (submitState s) 0 maxTicks).2.2 = [Delivery.result p]
    rw [hmx, hstops]
    simp [pollTick, hst]
  · rw [hrun]
    show (pollLoopCore (fun n => if n < 3 then PollResponse.transportError else .ok p)
      (submitState s) 0 maxTicks).1.analysisResult = some p
    rw [hmx, hstops]
    simp [pollTick, hst]
  · rw [hrun]
    show (pollLoopCore (fun n => if n < 3 then PollResponse.transportError else .ok p)
      (submitState s) 0 maxTicks).2.1 = 4
    rw [hmx, hstops]

/-- C6 witness: the three-throws-then-completed scenario at a concrete
state and payload. -/
theorem transient_poll_faults_tolerated_witness :
    (∀ s2 : PageState, pollTick s2 .transportError = (s2, false, none)) ∧
    (handleAnalyze (readyState "https://w6.example") (.ok (some "j8"))
        (fun n => if n < 3 then .transportError else .ok completedPayload)).deliveries =
      [Delivery.result completedPayload] ∧
    (handleAnalyze (readyState "https://w6.example") (.ok (some "j8"))
        (fun n => if n < 3 then .transportError else .ok completedPayload)).state.analysisResult =
      some completedPayload ∧
    (handleAnalyze (readyState "https://w6.example") (.ok (some "j8"))
        (fun n => if n < 3 then .transportError else .ok completedPayload)).pollsIssued = 4 :=
  transient_poll_faults_tolerated (readyState "https://w6.example")
    (some "j8") completedPayload rfl (by decide) rfl

/-- C7 counterexample: with user_intents present but empty the intent
region renders just the two headings (an empty list, no message), and with
intent_analysis absent it renders nothing at all; neither the "none found"
nor the "category not analyzed" message of the claim exists anywhere in
the output.  The two renders do remain distinct. -/
theorem no_empty_or_absent_messages_rendered :
    intentSectionText emptyIntentPayload = ["智能意图解构", "用户意图分析"] ∧
    intentSectionText absentIntentPayload = [] ∧
    ¬ ("none found" ∈ intentSectionText emptyIntentPayload) ∧
    ¬ ("category not analyzed" ∈ intentSectionText absentIntentPayload) ∧
    intentSectionText emptyIntentPayload ≠ intentSectionText absentIntentPayload := by
  exact ⟨rfl, rfl, by decide, by decide, by decide⟩

/-- C7 (amended): the present-but-empty versus absent distinction is
preserved through parsing and into rendering — a present-but-empty
user_intents list yields a rendered block holding an empty list while an
absent section renders nothing, and the two page outputs differ — but no
dedicated "none found" or "category not analyzed" message is emitted: the
empty case shows only the section headings. -/
theorem empty_and_absent_sections_render_distinct (p q : Payload)
    (ia : IntentAnalysis) (hp : p.intent_analysis = some ia)
    (hie : ia.user_intents = some []) (hq : q.intent_analysis = none) :
    (renderIntentSection ia).userIntentsBlock = some [] ∧
    (renderResult p).intentSection = some (renderIntentSection ia) ∧
    (renderResult q).intentSection = none ∧
    intentSectionText q = [] ∧
    "用户意图分析" ∈ intentSectionText p ∧
    intentSectionText p ≠ intentSectionText q := by
  refine ⟨?_, ?_, ?_, ?_, ?_, ?_⟩
  · simp [renderIntentSection, hie]
  · simp [renderResult, hp]
  · simp [renderResult, hq]
  · simp [intentSectionText, hq]
  · simp [intentSectionText, hp, hie]
  · simp [intentSectionText, hp, hq]

/-- C7 witness: the distinction at the concrete empty and absent bodies. -/
theorem empty_and_absent_sections_render_distinct_witness :
    (renderIntentSection { user_intents := some [], features := none }).userIntentsBlock =
      some [] ∧
    (renderResult emptyIntentPayload).intentSection =
      some (renderIntentSection { user_intents := some [], features := none }) ∧
    (renderResult absentIntentPayload).intentSection = none ∧
    intentSectionText absentIntentPayload = [] ∧
    "用户意图分析" ∈ intentSectionText emptyIntentPayload ∧
    intentSectionText emptyIntentPayload ≠ intentSectionText absentIntentPayload :=
  empty_and_absent_sections_render_distinct emptyIntentPayload
    absentIntentPayload { user_intents := some [], features := none }
    rfl rfl rfl

/-- C8: a completed payload whose navigation counts violate the
internal + external ≤ total invariant is still delivered (parsing cannot
throw: there is no validation), and rendering applies one uniform policy —
pass-through — to every navigation value: the block displays exactly the
three received integers, unmodified and unclamped. -/
theorem navigation_values_render_pass_through (s : PageState)
    (id : Option String) (p : Payload) (u : UserExperience) (nav : Navigation)
    (polls : Nat → PollResponse) (hl : s.loading = false) (hu : s.url ≠ "")
    (h0 : polls 0 = .ok p) (hst : p.status = some "completed")
    (hue : p.user_experience = some u) (hnav : u.navigation = some nav) :
    (handleAnalyze s (.ok id) polls).state.analysisResult = some p ∧
    (renderResult p).uxSection = some (renderUXSection u) ∧
    (renderUXSection u).navigationBlock = some nav ∧
    (navigationText nav).map Prod.snd =
      [nav.total_links, nav.internal_links, nav.external_links] := by
  rw [handleAnalyze_first_poll_completed s id p polls hu hl h0 hst]
  refine ⟨rfl, ?_, ?_, rfl⟩
  · simp [renderResult, hue]
  · simp [renderUXSection, hnav]

/-- C8 witness: the spec's concrete violating input
{totalLinks: 5, internalLinks: 3, externalLinks: 3} (3 + 3 > 5) is
delivered and displayed unchanged. -/
theorem navigation_values_render_pass_through_witness :
    (5 : Int) < 3 + 3 ∧
    ((handleAnalyze (readyState "https://w8.example") (.ok (some "j9"))
        (fun _ => .ok violatingNavPayload)).state.analysisResult =
      some violatingNavPayload ∧
    (renderResult violatingNavPayload).uxSection = some (renderUXSection violatingUX) ∧
    (renderUXSection violatingUX).navigationBlock = some violatingNav ∧
    (navigationText violatingNav).map Prod.snd =
      [violatingNav.total_links, violatingNav.internal_links,
       violatingNav.external_links]) :=
  ⟨by decide,
    navigation_values_render_pass_through (readyState "https://w8.example")
      (some "j9") violatingNavPayload violatingUX violatingNav
      (fun _ => .ok violatingNavPayload) rfl (by decide) rfl rfl rfl rfl⟩

/-- C9: a non-2xx status-poll response is skipped without its body ever
being inspected — the tick leaves the state untouched whatever the body
holds — and a run of nothing but non-2xx responses keeps polling until the
2-minute window closes (all 60 polls issued), never surfacing any error or
result to the caller. -/
theorem non_2xx_polls_ignored_without_reading_body (s : PageState)
    (id : Option String) (bodies : Nat → Payload) (hl : s.loading = false)
    (hu : s.url ≠ "") :
    (∀ (s2 : PageState) (b : Payload), pollTick s2 (.httpError b) = (s2, false, none)) ∧
    (handleAnalyze s (.ok id) (fun n => .httpError (bodies n))).deliveries = [] ∧
    (handleAnalyze s (.ok id) (fun n => .httpError (bodies n))).pollsIssued = maxTicks ∧
    (handleAnalyze s (.ok id) (fun n => .httpError (bodies n))).state.error = "" ∧
    (handleAnalyze s (.ok id) (fun n => .httpError (bodies n))).state.analysisResult = none := by
  have hall : ∀ j, clears ((fun n => PollResponse.httpError (bodies n)) j) = false :=
    fun j => rfl
  have hskip := pollLoopCore_all_skip (fun n => PollResponse.httpError (bodies n))
    hall maxTicks (submitState s) 0
  rw [Nat.zero_add] at hskip
  have hrun := handleAnalyze_ok_run s id (fun n => PollResponse.httpError (bodies n)) hu hl
  refine ⟨fun s2 b => rfl, ?_, ?_, ?_, ?_⟩ <;> rw [hrun]
  · show (pollLoopCore (fun n => PollResponse.httpError (bodies n))
      (submitState s) 0 maxTicks).2.2 = []
    rw [hskip]
  · show (pollLoopCore (fun n => PollResponse.httpError (bodies n))
      (submitState s) 0 maxTicks).2.1 = maxTicks
    rw [hskip]
  · show (pollLoopCore (fun n => PollResponse.httpError (bodies n))
      (submitState s) 0 maxTicks).1.error = ""
    rw [hskip]
    simp [submitState]
  · show (pollLoopCore (fun n => PollResponse.httpError (bodies n))
      (submitState s) 0 maxTicks).1.analysisResult = none
    rw [hskip]
    simp [submitState]

/-- C9 witness: a concrete run of 60 non-2xx poll responses. -/
theorem non_2xx_polls_ignored_without_reading_body_witness :
    (∀ (s2 : PageState) (b : Payload), pollTick s2 (.httpError b) = (s2, false, none)) ∧
    (handleAnalyze (readyState "https://w9.example") (.ok (some "j10"))
      (fun n => .httpError ((fun _ => pendingPayload) n))).deliveries = [] ∧
    (handleAnalyze (readyState "https://w9.example") (.ok (some "j10"))
      (fun n => .httpError ((fun _ => pendingPayload) n))).pollsIssued = maxTicks ∧
    (handleAnalyze (readyState "https://w9.example") (.ok (some "j10"))
      (fun n => .httpError ((fun _ => pendingPayload) n))).state.error = "" ∧
    (handleAnalyze (readyState "https://w9.example") (.ok (some "j10"))
      (fun n => .httpError ((fun _ => pendingPayload) n))).state.analysisResult = none :=
  non_2xx_polls_ignored_without_reading_body (readyState "https://w9.example")
    (some "j10") (fun _ => pendingPayload) rfl (by decide)

/-- C10: the renderer truncates with slice: the features block shows
exactly the first six features, in order, and each intent card shows
exactly the first three evidence strings, in order; entries beyond those
limits never appear, and the shown lists have length at most 6 and 3. -/
theorem renderer_truncates_features_and_evidence (ia : IntentAnalysis)
    (fs : List Feature) (it : UserIntent) (ev : List String)
    (hf : ia.features = some fs) (he : it.evidence = some ev)
    (hne : ev ≠ []) :
    (renderIntentSection ia).featuresBlock = some (fs.take 6) ∧
    (renderUserIntent it).evidenceShown = some (ev.take 3) ∧
    (fs.take 6).length ≤ 6 ∧ (ev.take 3).length ≤ 3 := by
  refine ⟨?_, ?_, ?_, ?_⟩
  · simp [renderIntentSection, hf]
  · have hpos : 0 < ev.length := List.length_pos.mpr hne
    simp [renderUserIntent, he, hpos]
  · exact List.length_take_le 6 fs
  · exact List.length_take_le 3 ev

/-- C10 witness: eight features render as the first six and five evidence
strings render as the first three, in their original order. -/
theorem renderer_truncates_features_and_evidence_witness :
    (renderIntentSection sampleIA).featuresBlock = some (sampleFeatures.take 6) ∧
    (renderUserIntent sampleIntent).evidenceShown =
      some (["e1", "e2", "e3", "e4", "e5"].take 3) ∧
    (sampleFeatures.take 6).length ≤ 6 ∧
    ((["e1", "e2", "e3", "e4", "e5"] : List String).take 3).length ≤ 3 :=
  renderer_truncates_features_and_evidence sampleIA sampleFeatures
    sampleIntent ["e1", "e2", "e3", "e4", "e5"] rfl rfl (by decide)
